import Mathlib

/-!
Verification of the teleoperation script `teleop/main.py`.

The script orchestrates an external device driver (`SO101Leader` from the
lerobot library) and a websocket library.  We embed the repository's own
code shallowly:

* joint angles are modelled as exact rationals (the Python code only moves
  float values around; it performs no arithmetic on angles);
* an "action" (the Python dict returned by `get_action`) is an association
  list `List (String × ℚ)` in insertion order;
* `json.dumps` of the per-tick payload is modelled as the JSON tree that is
  serialized (the stdlib serializer is external to the repository);
* each iteration of the two polling loops (`test_leader` and the
  `broadcast_actions` coroutine of `teleop_websocket`) is embedded as a
  function producing the tick's observable events in program order, with
  the elapsed time `dt`, the wall-clock timestamp, the connected-client
  set and each client's send outcome supplied as parameters (they come
  from the outside world);
* Python's `1 / fps` on `fps = 0` raises `ZeroDivisionError`; the sleep
  computation is therefore embedded as an `Except`.
-/

/-- JSON values, as far as this program builds them. -/
inductive Json : Type where
  | num (q : ℚ)
  | str (s : String)
  | obj (fields : List (String × Json))

/-- Field lookup in a JSON object (first binding wins, as in a dict). -/
def Json.lookupKey : Json → String → Option Json
  | Json.obj fs, k => List.lookup k fs
  | _, _ => none

/-- Whether a JSON value is an object carrying the given key. -/
def Json.hasKey (j : Json) (k : String) : Bool :=
  (j.lookupKey k).isSome

/-- Whether a JSON value is a number. -/
def Json.isNum : Json → Bool
  | Json.num _ => true
  | _ => false

/-- One step of Python dict assignment `d[k] = v`: if the key is present its
value is replaced in place, otherwise the binding is appended. -/
def dictInsert {α : Type} (d : List (String × α)) (k : String) (v : α) :
    List (String × α) :=
  if d.any (fun p => p.1 == k) then
    d.map (fun p => if p.1 == k then (k, v) else p)
  else
    d ++ [(k, v)]

/-- Python dict-comprehension semantics over a sequence of bindings:
insertion order with later values overwriting earlier ones. -/
def pyDict {α : Type} (l : List (String × α)) : List (String × α) :=
  l.foldl (fun d p => dictInsert d p.1 p.2) []

/-- Python `str.replace('.pos', '')` on the character list: a single
left-to-right scan removing every non-overlapping occurrence. -/
def removePosChars : List Char → List Char
  | '.' :: 'p' :: 'o' :: 's' :: rest => removePosChars rest
  | c :: rest => c :: removePosChars rest
  | [] => []

/-- Python `motor.replace('.pos', '')` as used at line 123 of
`teleop/main.py`. -/
def pyRemovePos (s : String) : String :=
  String.mk (removePosChars s.data)

/-- Whether a character list ends with the four characters `.pos`. -/
def endsWithPos (l : List Char) : Bool :=
  l.drop (l.length - 4) == ['.', 'p', 'o', 's']

/-- Modelled from the spec: the claimed key transformation, "the motor name
with its `.pos` suffix removed" — strip one trailing `.pos` only.  Kept for
comparison with the code's `pyRemovePos`. -/
def stripSuffixPos (s : String) : String :=
  if endsWithPos s.data then String.mk (s.data.take (s.data.length - 4))
  else s

/-- The `"actions"` object built by `broadcast_actions` (line 123): a dict
comprehension over the action with `.pos` removed from each motor name. -/
def wsActions (act : List (String × ℚ)) : List (String × Json) :=
  pyDict (act.map (fun p => (pyRemovePos p.1, Json.num p.2)))

/-- Modelled from the spec: the `"actions"` object as the spec describes it,
keyed by the suffix-stripped motor names. -/
def wsActionsSpec (act : List (String × ℚ)) : List (String × Json) :=
  pyDict (act.map (fun p => (stripSuffixPos p.1, Json.num p.2)))

/-- The per-tick payload `action_data` of `broadcast_actions`
(lines 121-124): a JSON object with a `"timestamp"` number and the
`"actions"` object. -/
def wsPayload (act : List (String × ℚ)) (ts : ℚ) : Json :=
  Json.obj [("timestamp", Json.num ts), ("actions", Json.obj (wsActions act))]

/-- The key list of the `"actions"` member of a payload. -/
def actionsKeyList (j : Json) : List String :=
  match j.lookupKey "actions" with
  | some (Json.obj fs) => fs.map (fun p => p.1)
  | _ => []

/-- The sleep computation shared by both loops (lines 69 and 137):
`max(0, 1 / fps - dt)`, where Python's integer division `1 / fps` raises
`ZeroDivisionError` when `fps = 0`. -/
def sleepTime (fps : Int) (dt : ℚ) : Except String ℚ :=
  if fps = 0 then Except.error "ZeroDivisionError"
  else Except.ok (max 0 (1 / (fps : ℚ) - dt))

/-- Observable events of one loop iteration, in program order. -/
inductive Ev : Type where
  /-- `get_action()` returned this action. -/
  | gotAction (act : List (String × ℚ))
  /-- `json.dumps(action_data)` was computed, once per tick. -/
  | serialized (j : Json)
  /-- `client.send(message)` was awaited with this outcome. -/
  | sent (client : String) (j : Json) (r : Except String Unit)
  /-- `time.sleep` / `asyncio.sleep` was called with this duration. -/
  | slept (d : ℚ)
  /-- the single-line terminal display rendered this action. -/
  | displayed (act : List (String × ℚ))

/-- Result of one loop iteration: its events and, when a tick aborts with an
uncaught exception, the exception's name. -/
structure TickResult : Type where
  events : List Ev
  err : Option String

/-- One iteration of the `while True` loop of `test_leader`
(lines 43-71): poll the device, render the display line, then compute the
sleep time and sleep when it is positive. -/
def testTick (act : List (String × ℚ)) (fps : Int) (dt : ℚ) : TickResult :=
  match sleepTime fps dt with
  | Except.error e =>
      { events := [Ev.gotAction act, Ev.displayed act], err := some e }
  | Except.ok st =>
      { events := [Ev.gotAction act, Ev.displayed act]
          ++ (if 0 < st then [Ev.slept st] else []),
        err := none }

/-- One iteration of the `while True` loop of `broadcast_actions`
(lines 113-158): poll the device, build the payload, and — only when the
client set is non-empty — serialize it once and send it to every client
via `asyncio.gather(..., return_exceptions=True)` (each client's send
outcome `sendR` is recorded, never raised); then sleep and render the
display line. -/
def websocketTick (clients : List String)
    (sendR : String → Except String Unit)
    (act : List (String × ℚ)) (ts : ℚ) (fps : Int) (dt : ℚ) : TickResult :=
  let bcast : List Ev :=
    if clients = [] then []
    else Ev.serialized (wsPayload act ts)
      :: clients.map (fun c => Ev.sent c (wsPayload act ts) (sendR c))
  match sleepTime fps dt with
  | Except.error e =>
      { events := Ev.gotAction act :: bcast, err := some e }
  | Except.ok st =>
      { events := (Ev.gotAction act :: bcast)
          ++ (if 0 < st then [Ev.slept st] else [])
          ++ [Ev.displayed act],
        err := none }

/-- Whether an event is a `get_action` call. -/
def isGotAction : Ev → Bool
  | Ev.gotAction _ => true
  | _ => false

/-- The serialized message of an event, when it is a serialization. -/
def evSerialized : Ev → Option Json
  | Ev.serialized j => some j
  | _ => none

/-- The send attempt of an event, when it is a send. -/
def evSent : Ev → Option (String × Json × Except String Unit)
  | Ev.sent c j res => some (c, j, res)
  | _ => none

/-- The sleep duration of an event, when it is a sleep. -/
def evSlept : Ev → Option ℚ
  | Ev.slept d => some d
  | _ => none

/-- Whether an event renders the display line. -/
def isDisplayed : Ev → Bool
  | Ev.displayed _ => true
  | _ => false

/-- Whether an event is outside the broadcast part (neither serialization
nor send). -/
def isNonBroadcast : Ev → Bool
  | Ev.serialized _ => false
  | Ev.sent _ _ _ => false
  | _ => true

/-- An event with its send outcome erased. -/
def evCore : Ev → Ev
  | Ev.sent c j _ => Ev.sent c j (Except.ok ())
  | e => e

/-- How often `get_action` was called during a tick. -/
def countGetAction (r : TickResult) : Nat :=
  (r.events.filter isGotAction).length

/-- The serialized message of a tick, when one was produced. -/
def messageOf (r : TickResult) : Option Json :=
  (r.events.filterMap evSerialized).head?

/-- The send attempts of a tick: client, message, outcome, in order. -/
def sentOf (r : TickResult) : List (String × Json × Except String Unit) :=
  r.events.filterMap evSent

/-- The sleep call of a tick, when one was made. -/
def sleptOf (r : TickResult) : Option ℚ :=
  (r.events.filterMap evSlept).head?

/-- Whether the display line was rendered during a tick. -/
def displayedOn (r : TickResult) : Bool :=
  r.events.any isDisplayed

/-- A tick's events with the broadcast part (serialization and sends)
removed: what remains is polling, sleeping and displaying. -/
def nonBroadcastEvents (r : TickResult) : List Ev :=
  r.events.filter isNonBroadcast

/-- A tick's events with each send outcome erased, for comparing runs that
differ only in which sends failed. -/
def eraseSendResults (r : TickResult) : List Ev :=
  r.events.map evCore

/-- The `test` display loop as a stream of ticks: at tick `n` the device
yields `dev n` and the iteration body takes `dts n` seconds. -/
def testLoop (dev : Nat → List (String × ℚ)) (fps : Int)
    (dts : Nat → ℚ) (n : Nat) : TickResult :=
  testTick (dev n) fps (dts n)

/-- The `websocket` broadcast loop as a stream of ticks: at tick `n` the
client set is `clientsAt n`, the send outcomes are `sendAt n`, the device
yields `dev n` at wall-clock time `tsAt n`, and the body takes `dtAt n`
seconds. -/
def websocketLoop (clientsAt : Nat → List String)
    (sendAt : Nat → String → Except String Unit)
    (dev : Nat → List (String × ℚ)) (tsAt : Nat → ℚ) (fps : Int)
    (dtAt : Nat → ℚ) (n : Nat) : TickResult :=
  websocketTick (clientsAt n) (sendAt n) (dev n) (tsAt n) fps (dtAt n)

/-- How a run of one of the looping modes ends.  The loops are `while True`,
so a run ends either by `KeyboardInterrupt` or by another exception; there
is no normal exit path. -/
inductive ExitKind : Type where
  | interrupt
  | exn (msg : String)

/-- Run-level events of a looping mode. -/
inductive RunEv : Type where
  /-- `connect()` succeeded at startup. -/
  | connected
  /-- one loop iteration ran. -/
  | ranTick (r : TickResult)
  /-- the `KeyboardInterrupt` handler printed its shutdown message. -/
  | shutdownMsg
  /-- `disconnect()` was called. -/
  | disconnected

/-- A run of `test_leader` that completes `ticks` iterations and then
exits: connect, the ticks, the `except KeyboardInterrupt` shutdown message
when interrupted, and the `finally: leader.disconnect()` on every path
(lines 36, 42-77). -/
def test_leader_run (dev : Nat → List (String × ℚ)) (fps : Int)
    (dts : Nat → ℚ) (ticks : Nat) (exit : ExitKind) : List RunEv :=
  [RunEv.connected]
    ++ (List.range ticks).map (fun n => RunEv.ranTick (testLoop dev fps dts n))
    ++ (match exit with
        | ExitKind.interrupt => [RunEv.shutdownMsg]
        | ExitKind.exn _ => [])
    ++ [RunEv.disconnected]

/-- A run of `teleop_websocket` that completes `ticks` iterations of
`broadcast_actions` and then exits: connect, the ticks, the
`except KeyboardInterrupt` shutdown message when interrupted, and the
`finally: teleop_device.disconnect()` on every path (lines 94, 172-178). -/
def teleop_websocket_run (clientsAt : Nat → List String)
    (sendAt : Nat → String → Except String Unit)
    (dev : Nat → List (String × ℚ)) (tsAt : Nat → ℚ) (fps : Int)
    (dtAt : Nat → ℚ) (ticks : Nat) (exit : ExitKind) : List RunEv :=
  [RunEv.connected]
    ++ (List.range ticks).map
        (fun n => RunEv.ranTick (websocketLoop clientsAt sendAt dev tsAt fps dtAt n))
    ++ (match exit with
        | ExitKind.interrupt => [RunEv.shutdownMsg]
        | ExitKind.exn _ => [])
    ++ [RunEv.disconnected]

/-- Whether a run event is the `connect()` call. -/
def isConnect : RunEv → Bool
  | RunEv.connected => true
  | _ => false

/-- Whether a run event is the `disconnect()` call. -/
def isDisconnect : RunEv → Bool
  | RunEv.disconnected => true
  | _ => false

/-- Count of `connect()` calls in a run. -/
def countConnect (l : List RunEv) : Nat :=
  (l.filter isConnect).length

/-- Count of `disconnect()` calls in a run. -/
def countDisconnect (l : List RunEv) : Nat :=
  (l.filter isDisconnect).length

/-- The device configuration record built by `get_leader_config`. -/
structure SO101LeaderConfig : Type where
  port : String
  id : String

/-- The serial port constant (line 9). -/
def PORT_LEADER : String := "/dev/tty.usbmodem5A4B0479861"

/-- `get_leader_config` (lines 12-16). -/
def get_leader_config : SO101LeaderConfig :=
  { port := PORT_LEADER, id := "my_awesome_leader_arm" }

/-- The configuration `calibrate_leader` constructs its device from
(line 19). -/
def calibrate_leader_config : SO101LeaderConfig :=
  get_leader_config

/-- The configuration `test_leader` constructs its device from (line 34);
the `fps` flag plays no part in it. -/
def test_leader_config (fps : Int) : SO101LeaderConfig :=
  get_leader_config

/-- The configuration `teleop_websocket` constructs its device from
(line 92); the `fps`, `host` and `port` flags play no part in it. -/
def teleop_websocket_config (fps : Int) (host : String) (port : Int) :
    SO101LeaderConfig :=
  get_leader_config

/-- The `--fps` CLI option (lines 188-193): argparse with `type=int`
accepts any integer, including zero and negative values, and passes it
through unchanged. -/
def cli_fps (n : Int) : Int := n

/-! ### Helper lemmas: extractors over the per-client send events -/

theorem evSent_map_sends (clients : List String) (j : Json)
    (sendR : String → Except String Unit) :
    List.filterMap evSent (clients.map (fun c => Ev.sent c j (sendR c)))
      = clients.map (fun c => (c, j, sendR c)) := by
  induction clients with
  | nil => rfl
  | cons c cs ih => simp [evSent, ih]

theorem evSerialized_map_sends (clients : List String) (j : Json)
    (sendR : String → Except String Unit) :
    List.filterMap evSerialized (clients.map (fun c => Ev.sent c j (sendR c)))
      = [] := by
  induction clients with
  | nil => rfl
  | cons c cs ih => simp [evSerialized, ih]

theorem evSlept_map_sends (clients : List String) (j : Json)
    (sendR : String → Except String Unit) :
    List.filterMap evSlept (clients.map (fun c => Ev.sent c j (sendR c)))
      = [] := by
  induction clients with
  | nil => rfl
  | cons c cs ih => simp [evSlept, ih]

theorem isGotAction_map_sends (clients : List String) (j : Json)
    (sendR : String → Except String Unit) :
    List.filter isGotAction (clients.map (fun c => Ev.sent c j (sendR c)))
      = [] := by
  induction clients with
  | nil => rfl
  | cons c cs ih => simp [isGotAction, ih]

theorem isNonBroadcast_map_sends (clients : List String) (j : Json)
    (sendR : String → Except String Unit) :
    List.filter isNonBroadcast (clients.map (fun c => Ev.sent c j (sendR c)))
      = [] := by
  induction clients with
  | nil => rfl
  | cons c cs ih => simp [isNonBroadcast, ih]

theorem evCore_map_sends (clients : List String) (j : Json)
    (sendR : String → Except String Unit) :
    (clients.map (fun c => Ev.sent c j (sendR c))).map evCore
      = clients.map (fun c => Ev.sent c j (Except.ok ())) := by
  induction clients with
  | nil => rfl
  | cons c cs ih => simp [evCore, ih]

theorem evSent_comp_sends (clients : List String) (j : Json)
    (sendR : String → Except String Unit) :
    List.filterMap (evSent ∘ fun c => Ev.sent c j (sendR c)) clients
      = clients.map (fun c => (c, j, sendR c)) := by
  induction clients with
  | nil => rfl
  | cons c cs ih => simp [evSent, ih, Function.comp]

theorem evSerialized_comp_sends (clients : List String) (j : Json)
    (sendR : String → Except String Unit) :
    List.filterMap (evSerialized ∘ fun c => Ev.sent c j (sendR c)) clients
      = [] := by
  induction clients with
  | nil => rfl
  | cons c cs ih => simp [evSerialized, ih, Function.comp]

theorem evSlept_comp_sends (clients : List String) (j : Json)
    (sendR : String → Except String Unit) :
    List.filterMap (evSlept ∘ fun c => Ev.sent c j (sendR c)) clients
      = [] := by
  induction clients with
  | nil => rfl
  | cons c cs ih => simp [evSlept, ih, Function.comp]

theorem isGotAction_comp_sends (clients : List String) (j : Json)
    (sendR : String → Except String Unit) :
    List.filter (isGotAction ∘ fun c => Ev.sent c j (sendR c)) clients
      = [] := by
  induction clients with
  | nil => rfl
  | cons c cs ih => simp [isGotAction, ih, Function.comp]

theorem isNonBroadcast_comp_sends (clients : List String) (j : Json)
    (sendR : String → Except String Unit) :
    List.filter (isNonBroadcast ∘ fun c => Ev.sent c j (sendR c)) clients
      = [] := by
  induction clients with
  | nil => rfl
  | cons c cs ih => simp [isNonBroadcast, ih, Function.comp]

theorem evCore_comp_sends (clients : List String) (j : Json)
    (sendR : String → Except String Unit) :
    clients.map (evCore ∘ fun c => Ev.sent c j (sendR c))
      = clients.map (fun c => Ev.sent c j (Except.ok ())) := by
  induction clients with
  | nil => rfl
  | cons c cs ih => simp [evCore, ih, Function.comp]

/-! ### Evaluation lemmas for the tick embeddings -/

theorem sentOf_websocketTick (clients : List String)
    (sendR : String → Except String Unit) (act : List (String × ℚ))
    (ts : ℚ) (fps : Int) (dt : ℚ) :
    sentOf (websocketTick clients sendR act ts fps dt)
      = clients.map (fun c => (c, wsPayload act ts, sendR c)) := by
  by_cases hc : clients = [] <;>
    cases h : sleepTime fps dt <;>
      simp [websocketTick, sentOf, h, hc, evSent, evSent_map_sends, evSent_comp_sends] <;>
        split <;> simp [evSent, evSent_map_sends, evSent_comp_sends]

theorem messageOf_websocketTick (clients : List String)
    (sendR : String → Except String Unit) (act : List (String × ℚ))
    (ts : ℚ) (fps : Int) (dt : ℚ) :
    messageOf (websocketTick clients sendR act ts fps dt)
      = if clients = [] then none else some (wsPayload act ts) := by
  by_cases hc : clients = [] <;>
    cases h : sleepTime fps dt <;>
      simp [websocketTick, messageOf, h, hc, evSerialized, evSerialized_map_sends, evSerialized_comp_sends] <;>
        split <;> simp [evSerialized, evSerialized_map_sends, evSerialized_comp_sends]

theorem countGetAction_websocketTick (clients : List String)
    (sendR : String → Except String Unit) (act : List (String × ℚ))
    (ts : ℚ) (fps : Int) (dt : ℚ) :
    countGetAction (websocketTick clients sendR act ts fps dt) = 1 := by
  by_cases hc : clients = [] <;>
    cases h : sleepTime fps dt <;>
      simp [websocketTick, countGetAction, h, hc, isGotAction,
        isGotAction_map_sends, isGotAction_comp_sends] <;>
        split <;> simp [isGotAction, isGotAction_map_sends, isGotAction_comp_sends]

theorem countGetAction_testTick (act : List (String × ℚ))
    (fps : Int) (dt : ℚ) :
    countGetAction (testTick act fps dt) = 1 := by
  cases h : sleepTime fps dt <;>
    simp [testTick, countGetAction, h, isGotAction] <;>
      split <;> simp [isGotAction]

theorem sleptOf_testTick (act : List (String × ℚ)) (fps : Int) (dt : ℚ)
    (st : ℚ) (h : sleepTime fps dt = Except.ok st) :
    sleptOf (testTick act fps dt) = (if 0 < st then some st else none) := by
  by_cases hst : 0 < st <;> simp [testTick, sleptOf, h, hst, evSlept]

theorem sleptOf_websocketTick (clients : List String)
    (sendR : String → Except String Unit) (act : List (String × ℚ))
    (ts : ℚ) (fps : Int) (dt : ℚ)
    (st : ℚ) (h : sleepTime fps dt = Except.ok st) :
    sleptOf (websocketTick clients sendR act ts fps dt)
      = (if 0 < st then some st else none) := by
  by_cases hc : clients = [] <;> by_cases hst : 0 < st <;>
    simp [websocketTick, sleptOf, h, hc, hst, evSlept,
      evSlept_map_sends, evSlept_comp_sends]

theorem err_websocketTick (clients : List String)
    (sendR : String → Except String Unit) (act : List (String × ℚ))
    (ts : ℚ) (fps : Int) (dt : ℚ) :
    (websocketTick clients sendR act ts fps dt).err
      = (match sleepTime fps dt with
         | Except.error e => some e
         | Except.ok _ => none) := by
  cases h : sleepTime fps dt <;> simp [websocketTick, h]

theorem err_testTick (act : List (String × ℚ)) (fps : Int) (dt : ℚ) :
    (testTick act fps dt).err
      = (match sleepTime fps dt with
         | Except.error e => some e
         | Except.ok _ => none) := by
  cases h : sleepTime fps dt <;> simp [testTick, h]

theorem nonBroadcastEvents_websocketTick (clients : List String)
    (sendR : String → Except String Unit) (act : List (String × ℚ))
    (ts : ℚ) (fps : Int) (dt : ℚ) :
    nonBroadcastEvents (websocketTick clients sendR act ts fps dt)
      = nonBroadcastEvents (websocketTick [] sendR act ts fps dt) := by
  by_cases hc : clients = [] <;>
    cases h : sleepTime fps dt <;>
      simp [websocketTick, nonBroadcastEvents, h, hc, isNonBroadcast,
        isNonBroadcast_map_sends, isNonBroadcast_comp_sends] <;>
        split <;> simp [isNonBroadcast, isNonBroadcast_map_sends,
          isNonBroadcast_comp_sends]

theorem eraseSendResults_websocketTick (clients : List String)
    (sendR sendR' : String → Except String Unit) (act : List (String × ℚ))
    (ts : ℚ) (fps : Int) (dt : ℚ) :
    eraseSendResults (websocketTick clients sendR act ts fps dt)
      = eraseSendResults (websocketTick clients sendR' act ts fps dt) := by
  by_cases hc : clients = [] <;>
    cases h : sleepTime fps dt <;>
      simp [websocketTick, eraseSendResults, h, hc, evCore,
        evCore_map_sends, evCore_comp_sends] <;>
        split <;> simp [evCore, evCore_map_sends, evCore_comp_sends]

theorem isConnect_map_ticks (l : List Nat) (g : Nat → TickResult) :
    List.filter (fun n => isConnect (RunEv.ranTick (g n))) l = [] := by
  induction l with
  | nil => rfl
  | cons n ns ih => simp [isConnect, ih]

theorem isDisconnect_map_ticks (l : List Nat) (g : Nat → TickResult) :
    List.filter (fun n => isDisconnect (RunEv.ranTick (g n))) l = [] := by
  induction l with
  | nil => rfl
  | cons n ns ih => simp [isDisconnect, ih]

/-! ### The claims -/

/-- C7: all three entry points (`calibrate_leader`, `test_leader`,
`teleop_websocket`) construct their device from the same configuration
constant: `get_leader_config` always returns a config whose port equals
`PORT_LEADER` and whose id equals `"my_awesome_leader_arm"`, independent of
the mode and of every CLI flag. -/
theorem claim_C7 (fps fps' : Int) (host : String) (port : Int) :
    calibrate_leader_config = get_leader_config
    ∧ test_leader_config fps = get_leader_config
    ∧ teleop_websocket_config fps' host port = get_leader_config
    ∧ get_leader_config.port = PORT_LEADER
    ∧ get_leader_config.id = "my_awesome_leader_arm" :=
  ⟨rfl, rfl, rfl, rfl, rfl⟩

/-- C8: the `--fps` option accepts any integer, and supplying `fps = 0`
makes the unguarded division `1 / fps` of the sleep computation raise
`ZeroDivisionError` on the first tick of both the test loop and the
broadcast loop. -/
theorem claim_C8 (n : Int) (dt ts : ℚ)
    (dev : Nat → List (String × ℚ)) (dts : Nat → ℚ)
    (clientsAt : Nat → List String)
    (sendAt : Nat → String → Except String Unit)
    (tsAt : Nat → ℚ) (dtAt : Nat → ℚ) :
    cli_fps n = n
    ∧ sleepTime (cli_fps 0) dt = Except.error "ZeroDivisionError"
    ∧ (testLoop dev (cli_fps 0) dts 0).err = some "ZeroDivisionError"
    ∧ (websocketLoop clientsAt sendAt dev tsAt (cli_fps 0) dtAt 0).err
        = some "ZeroDivisionError" := by
  refine ⟨rfl, by simp [sleepTime, cli_fps], ?_, ?_⟩
  · rw [testLoop, err_testTick]
    simp [sleepTime, cli_fps]
  · rw [websocketLoop, err_websocketTick]
    simp [sleepTime, cli_fps]

/-- C6: for every `fps > 0` and elapsed duration `dt ≥ 0`, the per-tick
sleep duration computed by the test loop and the broadcast loop is
`max 0 (1 / fps - dt)`, which is never negative, and the sleep call is made
exactly when that duration is strictly positive. -/
theorem claim_C6 (fps : Int) (hf : 0 < fps) (dt : ℚ) (hdt : 0 ≤ dt)
    (act : List (String × ℚ)) (clients : List String)
    (sendR : String → Except String Unit) (ts : ℚ) :
    sleepTime fps dt = Except.ok (max 0 (1 / (fps : ℚ) - dt))
    ∧ 0 ≤ max 0 (1 / (fps : ℚ) - dt)
    ∧ sleptOf (testTick act fps dt)
        = (if 0 < max 0 (1 / (fps : ℚ) - dt)
           then some (max 0 (1 / (fps : ℚ) - dt)) else none)
    ∧ sleptOf (websocketTick clients sendR act ts fps dt)
        = (if 0 < max 0 (1 / (fps : ℚ) - dt)
           then some (max 0 (1 / (fps : ℚ) - dt)) else none) := by
  have hne : fps ≠ 0 := by omega
  have hok : sleepTime fps dt = Except.ok (max 0 (1 / (fps : ℚ) - dt)) := by
    simp [sleepTime, hne]
  exact ⟨hok, le_max_left _ _,
    sleptOf_testTick act fps dt _ hok,
    sleptOf_websocketTick clients sendR act ts fps dt _ hok⟩

/-- Witness for C6 at `fps = 30`, `dt = 0`. -/
theorem claim_C6_witness :
    (0 : Int) < 30 ∧ (0 : ℚ) ≤ 0
    ∧ sleepTime 30 0 = Except.ok (max 0 (1 / ((30 : Int) : ℚ) - 0)) := by
  refine ⟨by norm_num, le_refl 0, ?_⟩
  exact (claim_C6 30 (by norm_num) 0 (le_refl 0) [] []
    (fun _ => Except.ok ()) 0).1

/-- C5: each iteration of the polling loop, in both test and websocket
modes, calls `get_action` exactly once, and the result of tick `n` of
either loop depends only on that tick's own inputs: two devices agreeing
at tick `n` yield identical tick results there, so no action is persisted
or reused across ticks. -/
theorem claim_C5 (act : List (String × ℚ)) (fps : Int) (dt : ℚ)
    (clients : List String) (sendR : String → Except String Unit) (ts : ℚ)
    (dev dev' : Nat → List (String × ℚ)) (dts : Nat → ℚ)
    (clientsAt : Nat → List String)
    (sendAt : Nat → String → Except String Unit)
    (tsAt : Nat → ℚ) (dtAt : Nat → ℚ) (n : Nat)
    (hagree : dev n = dev' n) :
    countGetAction (testTick act fps dt) = 1
    ∧ countGetAction (websocketTick clients sendR act ts fps dt) = 1
    ∧ testLoop dev fps dts n = testLoop dev' fps dts n
    ∧ websocketLoop clientsAt sendAt dev tsAt fps dtAt n
        = websocketLoop clientsAt sendAt dev' tsAt fps dtAt n := by
  refine ⟨countGetAction_testTick act fps dt,
    countGetAction_websocketTick clients sendR act ts fps dt, ?_, ?_⟩
  · rw [testLoop, testLoop, hagree]
  · rw [websocketLoop, websocketLoop, hagree]

/-- Witness for C5 on a constant device stream. -/
theorem claim_C5_witness :
    (fun _ : Nat => ([] : List (String × ℚ))) 0
        = (fun _ : Nat => ([] : List (String × ℚ))) 0
    ∧ countGetAction (testTick [] 30 0) = 1 := by
  refine ⟨rfl, ?_⟩
  exact (claim_C5 [] 30 0 [] (fun _ => Except.ok ()) 0
    (fun _ => []) (fun _ => []) (fun _ => 0) (fun _ => [])
    (fun _ _ => Except.ok ()) (fun _ => 0) (fun _ => 0) 0 rfl).1

/-- C3: in test and websocket modes a `KeyboardInterrupt` produces the
graceful-shutdown message, and on every exit path of the polling loop
(the loops are `while True`, so interruption or another exception) the
`finally` block calls `disconnect` exactly once, releasing the single
connection opened at startup. -/
theorem claim_C3 (dev : Nat → List (String × ℚ)) (fps : Int)
    (dts : Nat → ℚ) (clientsAt : Nat → List String)
    (sendAt : Nat → String → Except String Unit)
    (tsAt : Nat → ℚ) (dtAt : Nat → ℚ) (ticks : Nat) (exit : ExitKind) :
    countConnect (test_leader_run dev fps dts ticks exit) = 1
    ∧ countDisconnect (test_leader_run dev fps dts ticks exit) = 1
    ∧ countConnect
        (teleop_websocket_run clientsAt sendAt dev tsAt fps dtAt ticks exit) = 1
    ∧ countDisconnect
        (teleop_websocket_run clientsAt sendAt dev tsAt fps dtAt ticks exit) = 1
    ∧ (exit = ExitKind.interrupt →
        RunEv.shutdownMsg ∈ test_leader_run dev fps dts ticks exit
        ∧ RunEv.shutdownMsg
            ∈ teleop_websocket_run clientsAt sendAt dev tsAt fps dtAt ticks exit) := by
  refine ⟨?_, ?_, ?_, ?_, ?_⟩
  · cases exit <;>
      simp [test_leader_run, countConnect, isConnect, isConnect_map_ticks]
  · cases exit <;>
      simp [test_leader_run, countDisconnect, isDisconnect, isDisconnect_map_ticks]
  · cases exit <;>
      simp [teleop_websocket_run, countConnect, isConnect, isConnect_map_ticks]
  · cases exit <;>
      simp [teleop_websocket_run, countDisconnect, isDisconnect,
        isDisconnect_map_ticks]
  · intro he
    subst he
    constructor <;> simp [test_leader_run, teleop_websocket_run]

/-- Witness for C3: two ticks ended by `KeyboardInterrupt`. -/
theorem claim_C3_witness :
    countDisconnect
      (test_leader_run (fun _ => []) 30 (fun _ => 0) 2 ExitKind.interrupt) = 1
    ∧ RunEv.shutdownMsg
        ∈ test_leader_run (fun _ => []) 30 (fun _ => 0) 2 ExitKind.interrupt := by
  have h := claim_C3 (fun _ => []) 30 (fun _ => 0) (fun _ => [])
    (fun _ _ => Except.ok ()) (fun _ => 0) (fun _ => 0) 2 ExitKind.interrupt
  exact ⟨h.2.1, (h.2.2.2.2 rfl).1⟩

/-- C2: on every broadcast tick the one serialized payload is sent to every
client in the connected set — the send list pairs each client with the same
`wsPayload act ts` — so no two clients receive different messages on the
same tick. -/
theorem claim_C2 (clients : List String)
    (sendR : String → Except String Unit) (act : List (String × ℚ))
    (ts : ℚ) (fps : Int) (dt : ℚ) :
    sentOf (websocketTick clients sendR act ts fps dt)
        = clients.map (fun c => (c, wsPayload act ts, sendR c))
    ∧ ∀ x ∈ sentOf (websocketTick clients sendR act ts fps dt),
        ∀ y ∈ sentOf (websocketTick clients sendR act ts fps dt),
          x.2.1 = y.2.1 := by
  have h := sentOf_websocketTick clients sendR act ts fps dt
  refine ⟨h, ?_⟩
  intro x hx y hy
  rw [h] at hx hy
  rcases List.mem_map.mp hx with ⟨c, _, rfl⟩
  rcases List.mem_map.mp hy with ⟨c', _, rfl⟩
  rfl

/-- Witness for C2 with two connected clients. -/
theorem claim_C2_witness :
    sentOf (websocketTick ["a", "b"] (fun _ => Except.ok ()) [] 0 30 0)
      = [("a", wsPayload [] 0, Except.ok ()),
         ("b", wsPayload [] 0, Except.ok ())]
    ∧ (("a", wsPayload [] 0,
          (Except.ok () : Except String Unit)) :
            String × Json × Except String Unit).2.1
        = (("b", wsPayload [] 0,
          (Except.ok () : Except String Unit)) :
            String × Json × Except String Unit).2.1 := by
  have h := claim_C2 ["a", "b"] (fun _ => Except.ok ()) [] 0 30 0
  refine ⟨by simpa using h.1, ?_⟩
  exact h.2 _ (by simp [h.1]) _ (by simp [h.1])

/-- C4: delivery is best effort: the per-client send outcomes are recorded,
never raised — the list of clients attempted on a tick is exactly the
connected set however the sends turn out, each client is attempted once
(no retry), and neither the tick's exception outcome nor any other event
changes when some sends fail. -/
theorem claim_C4 (clients : List String)
    (sendR sendR' : String → Except String Unit)
    (act : List (String × ℚ)) (ts : ℚ) (fps : Int) (dt : ℚ) :
    (sentOf (websocketTick clients sendR act ts fps dt)).map
        (fun p => p.1) = clients
    ∧ (websocketTick clients sendR act ts fps dt).err
        = (websocketTick clients sendR' act ts fps dt).err
    ∧ eraseSendResults (websocketTick clients sendR act ts fps dt)
        = eraseSendResults (websocketTick clients sendR' act ts fps dt) := by
  refine ⟨?_, ?_, eraseSendResults_websocketTick clients sendR sendR' act ts fps dt⟩
  · rw [sentOf_websocketTick]
    simp [Function.comp_def]
  · rw [err_websocketTick, err_websocketTick]

/-- C10: on a broadcast tick with zero connected clients nothing is
serialized and nothing is sent, while the rest of the tick is unchanged:
the device is still polled exactly once, and the non-broadcast events
(polling, sleeping, display) and the tick's exception outcome are the same
as on a tick with any client set. -/
theorem claim_C10 (clients : List String)
    (sendR : String → Except String Unit) (act : List (String × ℚ))
    (ts : ℚ) (fps : Int) (dt : ℚ) :
    messageOf (websocketTick [] sendR act ts fps dt) = none
    ∧ sentOf (websocketTick [] sendR act ts fps dt) = []
    ∧ countGetAction (websocketTick [] sendR act ts fps dt) = 1
    ∧ nonBroadcastEvents (websocketTick clients sendR act ts fps dt)
        = nonBroadcastEvents (websocketTick [] sendR act ts fps dt)
    ∧ (websocketTick clients sendR act ts fps dt).err
        = (websocketTick [] sendR act ts fps dt).err := by
  refine ⟨?_, ?_, countGetAction_websocketTick [] sendR act ts fps dt,
    nonBroadcastEvents_websocketTick clients sendR act ts fps dt, ?_⟩
  · rw [messageOf_websocketTick]
    simp
  · rw [sentOf_websocketTick]
    simp
  · rw [err_websocketTick, err_websocketTick]

/-- C9: the payload's key transformation removes every occurrence of
`.pos` from a motor name — not only a trailing suffix — and because the
actions object is a dict comprehension, two distinct motor names whose
transforms coincide collapse to one key holding the later motor's value. -/
theorem claim_C9 (m1 m2 : String) (v1 v2 : ℚ) (ts : ℚ)
    (hne : m1 ≠ m2) (hkey : pyRemovePos m1 = pyRemovePos m2) :
    (wsPayload [(m1, v1), (m2, v2)] ts).lookupKey "actions"
        = some (Json.obj [(pyRemovePos m2, Json.num v2)])
    ∧ pyRemovePos "a.posb" = "ab"
    ∧ stripSuffixPos "a.posb" = "a.posb" := by
  refine ⟨?_, by decide, by decide⟩
  simp [wsPayload, wsActions, pyDict, dictInsert, Json.lookupKey, hkey,
    List.lookup]

/-- Witness for C9: `"gripper.pos.pos"` and `"gripper.pos"` are distinct
motor names that both transform to `"gripper"` and so collapse. -/
theorem claim_C9_witness :
    ("gripper.pos.pos" : String) ≠ "gripper.pos"
    ∧ pyRemovePos "gripper.pos.pos" = pyRemovePos "gripper.pos"
    ∧ (wsPayload [("gripper.pos.pos", (1 : ℚ)), ("gripper.pos", 2)] 0).lookupKey
        "actions" = some (Json.obj [(pyRemovePos "gripper.pos", Json.num 2)]) := by
  have hne : ("gripper.pos.pos" : String) ≠ "gripper.pos" := by decide
  have hkey : pyRemovePos "gripper.pos.pos" = pyRemovePos "gripper.pos" := by
    decide
  exact ⟨hne, hkey,
    (claim_C9 "gripper.pos.pos" "gripper.pos" 1 2 0 hne hkey).1⟩

/-- C1 as stated is false: the key transformation is not "the motor name
with its `.pos` suffix removed".  On the action `{"a.posb": 1}` the code's
payload carries the key `"ab"` (every occurrence of `.pos` removed), not
the suffix-stripped name `"a.posb"`. -/
theorem claim_C1_counterexample :
    actionsKeyList (wsPayload [("a.posb", (1 : ℚ))] 0)
      ≠ [("a.posb", (1 : ℚ))].map (fun p => stripSuffixPos p.1) := by
  decide

/-- C1 (amended): in websocket mode, on every tick with at least one
connected client the broadcast message is the JSON object with a numeric
`"timestamp"` field and an `"actions"` field mapping each motor name with
every occurrence of `.pos` removed to its angle value. -/
theorem claim_C1 (clients : List String)
    (sendR : String → Except String Unit) (act : List (String × ℚ))
    (ts : ℚ) (fps : Int) (dt : ℚ) (hc : clients ≠ []) :
    messageOf (websocketTick clients sendR act ts fps dt)
        = some (wsPayload act ts)
    ∧ (wsPayload act ts).hasKey "timestamp" = true
    ∧ (wsPayload act ts).hasKey "actions" = true
    ∧ (wsPayload act ts).lookupKey "timestamp" = some (Json.num ts)
    ∧ (wsPayload act ts).lookupKey "actions"
        = some (Json.obj
            (pyDict (act.map (fun p => (pyRemovePos p.1, Json.num p.2))))) := by
  refine ⟨?_, ?_, ?_, ?_, ?_⟩
  · rw [messageOf_websocketTick]
    simp [hc]
  · simp [wsPayload, Json.hasKey, Json.lookupKey, List.lookup]
  · simp [wsPayload, Json.hasKey, Json.lookupKey, List.lookup]
  · simp [wsPayload, Json.lookupKey, List.lookup]
  · simp [wsPayload, Json.lookupKey, List.lookup, wsActions]

/-- Witness for C1 with one connected client. -/
theorem claim_C1_witness :
    (["c"] : List String) ≠ []
    ∧ messageOf (websocketTick ["c"] (fun _ => Except.ok ()) [] 0 30 0)
        = some (wsPayload [] 0) := by
  refine ⟨by simp, ?_⟩
  exact (claim_C1 ["c"] (fun _ => Except.ok ()) [] 0 30 0 (by simp)).1
